import Mathlib

/-!
Verification of the automatick task console against its specification.

The definitions below are a shallow embedding of the Rust sources:
selection and visual-range tracking from `src/ui.rs` (`TaskListUI`),
the inline task editor from `src/ui/task_editor.rs` (`TaskEditor`),
task ordering from `src/tasks.rs` (`sort_tasks`),
the date/time parsers from `src/utils.rs`,
and the action dispatch / background-task bodies from `src/app.rs`.
Machine integers (`usize`, `u32`, `i32`, `i64` timestamps) are modelled as
`Nat`/`Int`; none of the modelled code paths exercise overflow.
-/

namespace Automatick

/-- Decidable equality on `Except`, used to evaluate parser results on
concrete inputs. -/
instance {ε α : Type} [DecidableEq ε] [DecidableEq α] : DecidableEq (Except ε α) :=
  fun a b =>
    match a, b with
    | .error e₁, .error e₂ =>
        if h : e₁ = e₂ then isTrue (by rw [h]) else isFalse (by simp [h])
    | .ok a₁, .ok a₂ =>
        if h : a₁ = a₂ then isTrue (by rw [h]) else isFalse (by simp [h])
    | .error _, .ok _ => isFalse (by simp)
    | .ok _, .error _ => isFalse (by simp)

/-! ## Selection / visual-range tracker (src/ui.rs, `TaskListUI`) -/

/-- The three task views, `ViewTab` in src/ui.rs. -/
inductive ViewTab where
  | Today
  | Week
  | Inbox
deriving DecidableEq, Repr

/-- The list-selection state of `TaskListUI` (src/ui.rs): the ratatui
`ListState` contributes only its `selected` index; `current_modal` and the
embedded task editor are modelled separately. -/
structure TaskListUI where
  selected : Option Nat
  current_tab : ViewTab
  visual_range : Option (Nat × Nat)
deriving DecidableEq, Repr

/-- `TaskListUI::update_visual_range`: keep the anchor, move the free end to
the currently selected index. -/
def TaskListUI.update_visual_range (ui : TaskListUI) : TaskListUI :=
  match ui.selected, ui.visual_range with
  | some idx, some (start, _) => { ui with visual_range := some (start, idx) }
  | _, _ => ui

/-- `TaskListUI::select_previous` (clamping). -/
def TaskListUI.select_previous (ui : TaskListUI) (task_count : Nat) : TaskListUI :=
  if task_count = 0 then ui
  else
    let ui' :=
      match ui.selected with
      | some i => if i > 0 then { ui with selected := some (i - 1) } else ui
      | none => if task_count > 0 then { ui with selected := some (task_count - 1) } else ui
    if ui'.visual_range.isSome then ui'.update_visual_range else ui'

/-- `TaskListUI::select_next` (clamping). -/
def TaskListUI.select_next (ui : TaskListUI) (task_count : Nat) : TaskListUI :=
  if task_count = 0 then ui
  else
    let ui' :=
      match ui.selected with
      | some i => if i < task_count - 1 then { ui with selected := some (i + 1) } else ui
      | none => if task_count > 0 then { ui with selected := some 0 } else ui
    if ui'.visual_range.isSome then ui'.update_visual_range else ui'

/-- `TaskListUI::select_previous_cycling`. -/
def TaskListUI.select_previous_cycling (ui : TaskListUI) (task_count : Nat) : TaskListUI :=
  if task_count = 0 then ui
  else
    let ui' :=
      match ui.selected with
      | some i =>
          if i = 0 then { ui with selected := some (task_count - 1) }
          else { ui with selected := some (i - 1) }
      | none => { ui with selected := some (task_count - 1) }
    if ui'.visual_range.isSome then ui'.update_visual_range else ui'

/-- `TaskListUI::select_next_cycling`. -/
def TaskListUI.select_next_cycling (ui : TaskListUI) (task_count : Nat) : TaskListUI :=
  if task_count = 0 then ui
  else
    let ui' :=
      match ui.selected with
      | some i =>
          if i ≥ task_count - 1 then { ui with selected := some 0 }
          else { ui with selected := some (i + 1) }
      | none => { ui with selected := some 0 }
    if ui'.visual_range.isSome then ui'.update_visual_range else ui'

/-- `TaskListUI::select_first`. -/
def TaskListUI.select_first (ui : TaskListUI) (task_count : Nat) : TaskListUI :=
  let ui' := if task_count > 0 then { ui with selected := some 0 } else ui
  if ui'.visual_range.isSome then ui'.update_visual_range else ui'

/-- `TaskListUI::select_last`. -/
def TaskListUI.select_last (ui : TaskListUI) (task_count : Nat) : TaskListUI :=
  let ui' := if task_count > 0 then { ui with selected := some (task_count - 1) } else ui
  if ui'.visual_range.isSome then ui'.update_visual_range else ui'

/-- `TaskListUI::select_none`: deselect; a present visual range is reset to
`(0, 0)` (it is *not* removed). -/
def TaskListUI.select_none (ui : TaskListUI) : TaskListUI :=
  let ui' := { ui with selected := none }
  if ui'.visual_range.isSome then { ui' with visual_range := some (0, 0) } else ui'

/-- `TaskListUI::next_tab`: advance the tab cyclically, then `select_none`. -/
def TaskListUI.next_tab (ui : TaskListUI) : TaskListUI :=
  let tab := match ui.current_tab with
    | ViewTab.Today => ViewTab.Week
    | ViewTab.Week => ViewTab.Inbox
    | ViewTab.Inbox => ViewTab.Today
  TaskListUI.select_none { ui with current_tab := tab }

/-- `TaskListUI::previous_tab`: step the tab back cyclically, then `select_none`. -/
def TaskListUI.previous_tab (ui : TaskListUI) : TaskListUI :=
  let tab := match ui.current_tab with
    | ViewTab.Today => ViewTab.Inbox
    | ViewTab.Week => ViewTab.Today
    | ViewTab.Inbox => ViewTab.Week
  TaskListUI.select_none { ui with current_tab := tab }

/-- `TaskListUI::get_selected_indices`: the inclusive span of the visual range
(whichever end is smaller first), else the single selected index, else empty. -/
def TaskListUI.get_selected_indices (ui : TaskListUI) : List Nat :=
  match ui.visual_range with
  | some (start, stop) => List.range (max start stop + 1 - min start stop) |>.map (· + min start stop)
  | none =>
    match ui.selected with
    | some idx => [idx]
    | none => []

/-- `TaskListUI::set_tasks`: clamp a selection that fell off the end of a
non-empty list to the last index. -/
def TaskListUI.set_tasks (ui : TaskListUI) (task_count : Nat) : TaskListUI :=
  match ui.selected with
  | some selected =>
      if selected ≥ task_count ∧ task_count ≠ 0 then
        { ui with selected := some (task_count - 1) }
      else ui
  | none => ui

/-! ## Inline task editor (src/ui/task_editor.rs, `TaskEditor`)

The per-field text state lives in an `edtui::EditorState`; the parts the
editor logic reads and writes are its line buffer, its cursor `(row, col)`
and its mode. -/

/-- The edtui editor mode; only Normal and Insert are reachable through the
modelled flows (edtui's Visual and Search modes are never entered by them). -/
inductive EditorMode where
  | Normal
  | Insert
deriving DecidableEq, Repr

/-- The slice of `edtui::EditorState` used by the repository: the `Lines`
buffer (one string per row), the cursor `Index2 { row, col }` and the mode. -/
structure EditorState where
  lines : List String
  row : Nat
  col : Nat
  mode : EditorMode
deriving DecidableEq, Repr

/-- `Lines::len_col(row)`: the length of the given row, if it exists. -/
def EditorState.len_col (e : EditorState) (row : Nat) : Option Nat :=
  (e.lines.get? row).map String.length

/-- Model of the edtui engine's cursor move for `j`/Down in Normal mode:
advance to the next row when one exists and clamp the column to the target
row's length (the same clamping convention the repository itself applies in
`position_cursor_at_desired_column`). -/
def EditorState.edtui_move_down (e : EditorState) : EditorState :=
  let row' := if e.row + 1 < e.lines.length then e.row + 1 else e.row
  match e.len_col row' with
  | some len => { e with row := row', col := min e.col len }
  | none => { e with row := row' }

/-- Model of the edtui engine's cursor move for `k`/Up in Normal mode. -/
def EditorState.edtui_move_up (e : EditorState) : EditorState :=
  let row' := e.row - 1
  match e.len_col row' with
  | some len => { e with row := row', col := min e.col len }
  | none => { e with row := row' }

/-- `InputField` from src/ui/task_editor.rs. -/
inductive InputField where
  | Title
  | Description
  | Date
  | Time
deriving DecidableEq, Repr

/-- `TaskEditor` from src/ui/task_editor.rs; the validation and
original-value fields are not needed by the navigation claims. -/
structure TaskEditor where
  input_title_editor : EditorState
  input_description_editor : EditorState
  input_date_editor : EditorState
  input_time_editor : EditorState
  current_input_field : InputField
  is_edit_mode : Bool
  desired_column : Nat
deriving DecidableEq, Repr

/-- The field-selection match repeated throughout src/ui/task_editor.rs
(`get_current_editor_mut` and the read-only copies of it). -/
def TaskEditor.get_current_editor (te : TaskEditor) : EditorState :=
  match te.current_input_field with
  | InputField.Title => te.input_title_editor
  | InputField.Description => te.input_description_editor
  | InputField.Date => te.input_date_editor
  | InputField.Time => te.input_time_editor

/-- Write back through `get_current_editor_mut`. -/
def TaskEditor.set_current_editor (te : TaskEditor) (e : EditorState) : TaskEditor :=
  match te.current_input_field with
  | InputField.Title => { te with input_title_editor := e }
  | InputField.Description => { te with input_description_editor := e }
  | InputField.Date => { te with input_date_editor := e }
  | InputField.Time => { te with input_time_editor := e }

/-- `TaskEditor::is_current_editor_in_insert_mode`. -/
def TaskEditor.is_current_editor_in_insert_mode (te : TaskEditor) : Bool :=
  te.get_current_editor.mode == EditorMode.Insert

/-- `TaskEditor::update_desired_column`: `desired_column := cursor.col`. -/
def TaskEditor.update_desired_column (te : TaskEditor) : TaskEditor :=
  { te with desired_column := te.get_current_editor.col }

/-- `TaskEditor::position_cursor_at_desired_column`:
`cursor.col := min desired_column (length of the current row)`. -/
def TaskEditor.position_cursor_at_desired_column (te : TaskEditor) : TaskEditor :=
  let e := te.get_current_editor
  match e.len_col e.row with
  | some line_len => te.set_current_editor { e with col := min te.desired_column line_len }
  | none => te

/-- `TaskEditor::position_cursor_at_end`. -/
def TaskEditor.position_cursor_at_end (te : TaskEditor) : TaskEditor :=
  let e := te.get_current_editor
  if e.lines.isEmpty then
    { te.set_current_editor { e with row := 0, col := 0 } with desired_column := 0 }
  else
    let last_row_idx := e.lines.length - 1
    match e.len_col last_row_idx with
    | some last_col =>
        { te.set_current_editor { e with row := last_row_idx, col := last_col } with
            desired_column := last_col }
    | none => te

/-- `TaskEditor::is_at_first_line_in_multiline_field`. -/
def TaskEditor.is_at_first_line_in_multiline_field (te : TaskEditor) : Bool :=
  match te.current_input_field with
  | InputField.Description => te.input_description_editor.row == 0
  | _ => true

/-- `TaskEditor::is_at_last_line_in_multiline_field`. -/
def TaskEditor.is_at_last_line_in_multiline_field (te : TaskEditor) : Bool :=
  match te.current_input_field with
  | InputField.Description =>
      te.input_description_editor.row ≥ te.input_description_editor.lines.length - 1
  | _ => true

/-- `TaskEditor::is_at_line_start`. -/
def TaskEditor.is_at_line_start (te : TaskEditor) : Bool :=
  te.get_current_editor.col == 0

/-- `TaskEditor::handle_j_navigation`: field-to-field handoff for `j`/Down.
Returns the mutated editor and the `bool` the source returns (`false` means
"let the edtui engine handle it"). -/
def TaskEditor.handle_j_navigation (te : TaskEditor) : TaskEditor × Bool :=
  if te.current_input_field = InputField.Description ∧
      ¬ te.is_at_last_line_in_multiline_field then
    (te, false)
  else
    match te.current_input_field with
    | InputField.Title =>
        let te := { te with current_input_field := InputField.Description }
        let te := te.set_current_editor { te.get_current_editor with row := 0 }
        (te.position_cursor_at_desired_column, true)
    | InputField.Description =>
        let te := { te with current_input_field := InputField.Date }
        let te := te.set_current_editor { te.get_current_editor with row := 0 }
        (te.position_cursor_at_desired_column, true)
    | InputField.Date =>
        let te := { te with current_input_field := InputField.Time }
        let te := te.set_current_editor { te.get_current_editor with row := 0 }
        (te.position_cursor_at_desired_column, true)
    | InputField.Time => (te, true)

/-- `TaskEditor::handle_k_navigation`: field-to-field handoff for `k`/Up. -/
def TaskEditor.handle_k_navigation (te : TaskEditor) : TaskEditor × Bool :=
  if te.current_input_field = InputField.Description ∧
      ¬ te.is_at_first_line_in_multiline_field then
    (te, false)
  else
    match te.current_input_field with
    | InputField.Title => (te, true)
    | InputField.Description =>
        let te := { te with current_input_field := InputField.Title }
        let te := te.set_current_editor { te.get_current_editor with row := 0 }
        (te.position_cursor_at_desired_column, true)
    | InputField.Date =>
        let te := { te with current_input_field := InputField.Description }
        let e := te.get_current_editor
        let e := if e.lines.length > 0 then { e with row := e.lines.length - 1 }
                 else { e with row := 0 }
        let te := te.set_current_editor e
        (te.position_cursor_at_desired_column, true)
    | InputField.Time =>
        let te := { te with current_input_field := InputField.Date }
        let te := te.set_current_editor { te.get_current_editor with row := 0 }
        (te.position_cursor_at_desired_column, true)

/-- The `j`/Down key route of src/app.rs (`handle_key_event`, Normal mode with
the task editor focused, lines 1075-1099), in the branch where the current
editor is *not* in insert mode: a move within the multiline Description field
is delegated to the edtui engine and then followed by `update_desired_column`;
otherwise `handle_j_navigation` hands off to the next field. -/
def TaskEditor.handle_j_key_normal (te : TaskEditor) : TaskEditor :=
  if te.current_input_field = InputField.Description ∧
      ¬ te.is_at_last_line_in_multiline_field then
    (te.set_current_editor te.get_current_editor.edtui_move_down).update_desired_column
  else
    let (te', handled) := te.handle_j_navigation
    if handled then te'
    else (te'.set_current_editor te'.get_current_editor.edtui_move_down).update_desired_column

/-- The `k`/Up key route of src/app.rs (lines 1100-1124), current editor not
in insert mode. -/
def TaskEditor.handle_k_key_normal (te : TaskEditor) : TaskEditor :=
  if te.current_input_field = InputField.Description ∧
      ¬ te.is_at_first_line_in_multiline_field then
    (te.set_current_editor te.get_current_editor.edtui_move_up).update_desired_column
  else
    let (te', handled) := te.handle_k_navigation
    if handled then te'
    else (te'.set_current_editor te'.get_current_editor.edtui_move_up).update_desired_column

/-! ## Calendar dates and times (chrono `NaiveDate` / `NaiveTime`) -/

/-- Gregorian leap year. -/
def isLeapYear (y : Int) : Bool := (y % 4 == 0 && y % 100 != 0) || (y % 400 == 0)

/-- Days in a month of a given year (0 for an invalid month number). -/
def daysInMonth (y : Int) (m : Nat) : Nat :=
  match m with
  | 1 => 31
  | 2 => if isLeapYear y then 29 else 28
  | 3 => 31
  | 4 => 30
  | 5 => 31
  | 6 => 30
  | 7 => 31
  | 8 => 31
  | 9 => 30
  | 10 => 31
  | 11 => 30
  | 12 => 31
  | _ => 0

/-- chrono `NaiveDate`, as a validated year/month/day triple. -/
structure NaiveDate where
  year : Int
  month : Nat
  day : Nat
deriving DecidableEq, Repr

/-- `NaiveDate::from_ymd_opt`: calendar-valid dates only. -/
def NaiveDate.from_ymd_opt (y : Int) (m d : Nat) : Option NaiveDate :=
  if 1 ≤ m ∧ m ≤ 12 ∧ 1 ≤ d ∧ d ≤ daysInMonth y m then some ⟨y, m, d⟩ else none

/-- chrono's `Ord` on `NaiveDate`: lexicographic on (year, month, day). -/
def NaiveDate.lt (a b : NaiveDate) : Bool :=
  a.year < b.year ||
    (a.year == b.year && (a.month < b.month || (a.month == b.month && a.day < b.day)))

/-- chrono `NaiveTime` at whole-second precision (the parsers only ever
produce zero-second times). -/
structure NaiveTime where
  hour : Nat
  minute : Nat
  second : Nat
deriving DecidableEq, Repr

/-- `NaiveTime::from_hms_opt` (leap seconds are not modelled; no parser input
reaches them). -/
def NaiveTime.from_hms_opt (h m s : Nat) : Option NaiveTime :=
  if h ≤ 23 ∧ m ≤ 59 ∧ s ≤ 59 then some ⟨h, m, s⟩ else none

/-! ## String primitives

Rust's `str` operations are modelled by structurally recursive functions on
the underlying character list (Lean's own `String.trim`/`String.split` are
defined by well-founded recursion and do not reduce inside the kernel). -/

/-- Rust `str::trim`: strip leading and trailing whitespace. -/
def strTrim (s : String) : String :=
  ⟨((s.data.dropWhile Char.isWhitespace).reverse.dropWhile Char.isWhitespace).reverse⟩

/-- The pieces of a character list between separator occurrences; empty
pieces are kept, and a list with no separator yields one piece. -/
def splitChars (p : Char → Bool) : List Char → List (List Char)
  | [] => [[]]
  | c :: rest =>
    if p c then [] :: splitChars p rest
    else
      match splitChars p rest with
      | [] => [[c]]
      | piece :: pieces => (c :: piece) :: pieces

/-- Rust `str::split(sep)`. -/
def strSplit (s : String) (p : Char → Bool) : List String :=
  (splitChars p s.data).map fun cs => ⟨cs⟩

/-- Rust `str::contains(char)`. -/
def strContains (s : String) (c : Char) : Bool := s.data.any (· == c)

/-- Rust `str::ends_with(pat)`. -/
def strEndsWith (s pat : String) : Bool := pat.data.isSuffixOf s.data

/-- Drop the last `n` characters (for stripping a matched suffix). -/
def strDropRight (s : String) (n : Nat) : String := ⟨s.data.take (s.data.length - n)⟩

/-- Rust `str::to_lowercase` (ASCII inputs only reach it here). -/
def strToLower (s : String) : String := ⟨s.data.map Char.toLower⟩

/-- Rust `[String]::join(sep)`. -/
def strJoin (sep : String) : List String → String
  | [] => ""
  | [x] => x
  | x :: y :: rest => x ++ sep ++ strJoin sep (y :: rest)

/-! ## Numeric string parsing (Rust `str::parse`) -/

/-- One-or-more ASCII digits to a number. -/
def parseDigits (cs : List Char) : Option Nat :=
  if cs ≠ [] ∧ cs.all Char.isDigit then
    some (cs.foldl (fun acc c => acc * 10 + (c.toNat - 48)) 0)
  else none

/-- Rust `str::parse::<u32>`: an optional leading `+`, then digits.
(Values large enough to overflow a `u32` never reach the modelled checks.) -/
def parseU32 (s : String) : Option Nat :=
  match s.data with
  | '+' :: rest => parseDigits rest
  | cs => parseDigits cs

/-- Rust `str::parse::<i32>`: an optional sign, then digits. -/
def parseI32 (s : String) : Option Int :=
  match s.data with
  | '-' :: rest => (parseDigits rest).map (fun n => -(n : Int))
  | '+' :: rest => (parseDigits rest).map (fun n => (n : Int))
  | cs => (parseDigits cs).map (fun n => (n : Int))

/-! ## Date parsing (src/utils.rs, `parse_date_us_format`) -/

/-- Model of chrono `NaiveDate::parse_from_str(s, "%Y-%m-%d")`: exactly three
dash-separated numeric fields forming a valid calendar date, nothing else.
(chrono additionally accepts a signed year, which no modelled input uses;
such inputs fail on both sides, with different error text.) -/
def parse_iso_date (s : String) : Option NaiveDate :=
  match strSplit s (· == '-') with
  | [ys, ms, ds] => do
      let y ← (parseDigits ys.data).map (fun n => (n : Int))
      let m ← parseDigits ms.data
      let d ← parseDigits ds.data
      NaiveDate.from_ymd_opt y m d
  | _ => none

/-- The tail of `parse_date_us_format` after month/day/optional-year have been
read: the range checks on month and day, the current-or-next-year resolution
against `today` when no year was given, and the final date construction. -/
def resolve_month_day (today : NaiveDate) (month day : Nat) (year_opt : Option Int) :
    Except String NaiveDate :=
  if month < 1 ∨ month > 12 then .error "Month must be between 1 and 12"
  else if day < 1 ∨ day > 31 then .error "Day must be between 1 and 31"
  else
    let year :=
      match year_opt with
      | some y => y
      | none =>
        let current_year := today.year
        match NaiveDate.from_ymd_opt current_year month day with
        | some date => if ¬ date.lt today then current_year else current_year + 1
        | none => current_year + 1
    match NaiveDate.from_ymd_opt year month day with
    | some d => .ok d
    | none =>
        .error ("Invalid date: " ++ toString month ++ "/" ++ toString day ++ "/" ++
          toString year)

/-- `parse_date_us_format` from src/utils.rs. The source reads
`Local::now().date_naive()`; that ambient value is the explicit `today`
parameter here. -/
def parse_date_us_format (today : NaiveDate) (date_str : String) :
    Except String NaiveDate :=
  let date_str := strTrim date_str
  match parse_iso_date date_str with
  | some date => .ok date
  | none =>
    let sep? : Option Char :=
      if strContains date_str '/' then some '/'
      else if strContains date_str '-' then some '-'
      else none
    match sep? with
    | none =>
        .error "Invalid date format. Use MM/DD, MM/DD/YYYY, MM-DD, MM-DD-YY, or YYYY-MM-DD"
    | some sep =>
      match strSplit date_str (· == sep) with
      | [p0, p1] =>
          match parseU32 p0 with
          | none => .error ("Invalid month: " ++ p0)
          | some month =>
            match parseU32 p1 with
            | none => .error ("Invalid day: " ++ p1)
            | some day => resolve_month_day today month day none
      | [p0, p1, p2] =>
          match parseU32 p0 with
          | none => .error ("Invalid month: " ++ p0)
          | some month =>
            match parseU32 p1 with
            | none => .error ("Invalid day: " ++ p1)
            | some day =>
              match parseI32 p2 with
              | none => .error ("Invalid year: " ++ p2)
              | some year_part =>
                let year := if year_part < 100 then 2000 + year_part else year_part
                resolve_month_day today month day (some year)
      | _ =>
          .error "Invalid date format. Use MM/DD, MM/DD/YYYY, MM-DD, MM-DD-YY, or YYYY-MM-DD"

/-! ## Time parsing (src/utils.rs, `parse_time_us_format`) -/

/-- Rust `str::trim_end_matches(pat)`: strip every trailing repetition of the
pattern (implemented with a length fuel, which bounds the repetitions). -/
def trimEndMatchesGo (pat : String) : Nat → String → String
  | 0, s => s
  | n + 1, s =>
      if pat ≠ "" ∧ strEndsWith s pat then
        trimEndMatchesGo pat n (strDropRight s pat.length)
      else s

/-- Rust `str::trim_end_matches(pat)`. -/
def trimEndMatches (pat s : String) : String := trimEndMatchesGo pat s.length s

/-- Model of chrono `NaiveTime::parse_from_str(s, "%H:%M")`: one or two digit
hour `0..=23`, colon, one or two digit minute `0..=59`, nothing else. -/
def parse_hm_24 (s : String) : Option NaiveTime :=
  match strSplit s (· == ':') with
  | [hs, ms] =>
      if hs.length ≥ 1 ∧ hs.length ≤ 2 ∧ ms.length ≥ 1 ∧ ms.length ≤ 2 then do
        let h ← parseDigits hs.data
        let m ← parseDigits ms.data
        if h ≤ 23 ∧ m ≤ 59 then some ⟨h, m, 0⟩ else none
      else none
  | _ => none

/-- The hour/minute extraction and 12-hour conversion of
`parse_time_us_format` after the am/pm suffix has been removed. -/
def parse_time_12h (is_pm : Bool) (time_without_suffix : String) :
    Except String NaiveTime :=
  let parts := strSplit time_without_suffix (· == ':')
  match parts with
  | [p0] =>
      match parseU32 p0 with
      | none => .error ("Invalid hour: " ++ p0)
      | some hour => parse_time_12h_bounds is_pm hour 0
  | [p0, p1] =>
      match parseU32 p0 with
      | none => .error ("Invalid hour: " ++ p0)
      | some hour =>
        match parseU32 p1 with
        | none => .error ("Invalid minute: " ++ p1)
        | some minute => parse_time_12h_bounds is_pm hour minute
  | _ => .error "Invalid time format. Use formats like 5pm or 5:30 AM"
where
  parse_time_12h_bounds (is_pm : Bool) (hour_12 minute : Nat) : Except String NaiveTime :=
    if hour_12 < 1 ∨ hour_12 > 12 then .error "Hour must be between 1 and 12"
    else if minute > 59 then .error "Minute must be between 0 and 59"
    else
      let hour_24 :=
        if hour_12 = 12 then (if is_pm then 12 else 0)
        else (if is_pm then hour_12 + 12 else hour_12)
      match NaiveTime.from_hms_opt hour_24 minute 0 with
      | some t => .ok t
      | none =>
          .error ("Invalid time: " ++ toString hour_24 ++ ":" ++
            (if minute < 10 then "0" else "") ++ toString minute)

/-- `parse_time_us_format` from src/utils.rs. In the source, the
"Invalid time format" messages quote example inputs in single quotes; the
quotes are left out of the modelled messages, and no theorem depends on the
text of those two messages. -/
def parse_time_us_format (time_str : String) : Except String NaiveTime :=
  let time_str := strToLower (strTrim time_str)
  if strEndsWith time_str "pm" then
    parse_time_12h true (strTrim (trimEndMatches "pm" time_str))
  else if strEndsWith time_str "am" then
    parse_time_12h false (strTrim (trimEndMatches "am" time_str))
  else
    match parse_hm_24 time_str with
    | some t => .ok t
    | none => .error "Invalid time format. Use formats like 5pm, 5:30 AM, or 17:00"

/-! ## Task snapshots and ordering (src/tasks.rs, `sort_tasks`)

`DateTime<Utc>` values are modelled by their timestamp in whole seconds
(chrono's sub-second component plays no role: `timestamp()`, the calendar
day and `Ord` agree with the seconds value on every modelled code path). -/

/-- Days-since-epoch to civil (year, month, day); this is the calendar date
chrono's `year()`/`month()`/`day()` report for a UTC datetime. -/
def civil_from_days (z : Int) : Int × Nat × Nat :=
  let z := z + 719468
  let era := (if z ≥ 0 then z else z - 146096) / 146097
  let doe := z - era * 146097
  let yoe := (doe - doe / 1460 + doe / 36524 - doe / 146096) / 365
  let y := yoe + era * 400
  let doy := doe - (365 * yoe + yoe / 4 - yoe / 100)
  let mp := (5 * doy + 2) / 153
  let d := doy - (153 * mp + 2) / 5 + 1
  let m := if mp < 10 then mp + 3 else mp - 9
  (if m ≤ 2 then y + 1 else y, m.toNat, d.toNat)

/-- The (year, month, day) of a UTC timestamp in seconds. -/
def timestampYmd (ts : Int) : Int × Nat × Nat := civil_from_days (Int.fdiv ts 86400)

/-- The `compare_by_day` helper inside `sort_tasks`: year, then month, then
day. -/
def compare_by_day (dt_a dt_b : Int) : Ordering :=
  let (ya, ma, da) := timestampYmd dt_a
  let (yb, mb, db) := timestampYmd dt_b
  match compare ya yb with
  | .eq =>
    match compare ma mb with
    | .eq => compare da db
    | other => other
  | other => other

/-- The `is_unset` helper inside `sort_tasks`: the epoch sentinel. -/
def is_unset (ts : Int) : Bool := ts == 0

/-- The task snapshot fields that `sort_tasks` reads (title, ids, content and
priority never influence the order). -/
structure Task where
  due_date : Int
  start_date : Int
  is_all_day : Bool
  sort_order : Int
deriving DecidableEq, Repr

/-- The due-date leg of the `sort_tasks` comparator (src/tasks.rs lines
317-337): unset dates go last; set dates compare by day, then non-all-day
before all-day on the same day, then by exact timestamp. -/
def cmp_due (a b : Task) : Ordering :=
  match is_unset a.due_date, is_unset b.due_date with
  | true, true => .eq
  | true, false => .gt
  | false, true => .lt
  | false, false =>
    let day_cmp := compare_by_day a.due_date b.due_date
    if day_cmp ≠ .eq then day_cmp
    else
      match a.is_all_day, b.is_all_day with
      | true, false => .gt
      | false, true => .lt
      | _, _ => compare a.due_date b.due_date

/-- The start-date leg of the `sort_tasks` comparator (src/tasks.rs lines
345-365); it reads the same `is_all_day` flags. -/
def cmp_start (a b : Task) : Ordering :=
  match is_unset a.start_date, is_unset b.start_date with
  | true, true => .eq
  | true, false => .gt
  | false, true => .lt
  | false, false =>
    let day_cmp := compare_by_day a.start_date b.start_date
    if day_cmp ≠ .eq then day_cmp
    else
      match a.is_all_day, b.is_all_day with
      | true, false => .gt
      | false, true => .lt
      | _, _ => compare a.start_date b.start_date

/-- The full comparator passed to `tasks.sort_by` in `sort_tasks`. -/
def cmp_tasks (a b : Task) : Ordering :=
  let due_cmp := cmp_due a b
  if due_cmp ≠ .eq then due_cmp
  else
    let start_cmp := cmp_start a b
    if start_cmp ≠ .eq then start_cmp
    else compare a.sort_order b.sort_order

/-- `sort_tasks`: Rust's stable `sort_by` with the comparator above, modelled
by a stable merge sort on "does not compare greater". -/
def sort_tasks (tasks : List Task) : List Task :=
  tasks.mergeSort (fun a b => cmp_tasks a b ≠ .gt)

/-- The date rule exactly as the specification words it (the refinement
target for the comparator): "due date treated as unset-sorts-last, otherwise
compared by calendar day first, then all-day tasks sort after timed tasks on
the same day, then by exact timestamp". -/
def claim_date_rule (ts_a ts_b : Int) (all_day_a all_day_b : Bool) : Ordering :=
  if is_unset ts_a && is_unset ts_b then .eq
  else if is_unset ts_a then .gt
  else if is_unset ts_b then .lt
  else
    let allday_cmp : Ordering :=
      match all_day_a, all_day_b with
      | false, true => .lt
      | true, false => .gt
      | _, _ => .eq
    (compare_by_day ts_a ts_b).then (allday_cmp.then (compare ts_a ts_b))

/-- The specification's task order: the date rule on due dates, ties broken
by the same rule on start dates, remaining ties by the sort-order field. -/
def claim_order (a b : Task) : Ordering :=
  (claim_date_rule a.due_date b.due_date a.is_all_day b.is_all_day).then
    ((claim_date_rule a.start_date b.start_date a.is_all_day b.is_all_day).then
      (compare a.sort_order b.sort_order))

/-! ## Actions, modes and keys (src/action.rs, src/app.rs) -/

/-- `Mode` from src/app.rs. -/
inductive Mode where
  | Normal
  | Insert
  | Visual
  | Processing
  | Help
deriving DecidableEq, Repr

/-- The `Action` enumeration, with the variants the run loop of src/app.rs
dispatches on. -/
inductive Action where
  | Tick
  | Render
  | Resize (w h : Nat)
  | Quit
  | RefreshTasks
  | Error (msg : String)
  | ToggleHelp
  | SelectPrevious
  | SelectNext
  | SelectPreviousCycling
  | SelectNextCycling
  | SelectFirst
  | SelectLast
  | SelectNone
  | PreviousTab
  | NextTab
  | CompleteTask
  | StartCompleteTask
  | StartDeleteTask
  | DeleteTask
  | StartPostponeTask
  | StartCreateTask
  | StartEditTask
  | CancelInput
  | ConfirmInput
  | EnterNormal
  | EnterInsert
  | EnterVisual
  | EnterProcessing
  | ExitProcessing
  | EnterTaskEditor
  | ExitTaskEditor
  | TaskOperationComplete
  | TasksFetched
deriving DecidableEq, Repr

/-- The crossterm key codes `handle_key_event` distinguishes. -/
inductive KeyCode where
  | Char (c : Char)
  | Esc
  | Enter
  | Tab
  | BackTab
  | Up
  | Down
  | Left
  | Right
  | Home
  | End
  | Backspace
  | Delete
deriving DecidableEq, Repr

/-- A key event: its code plus the two modifiers the handler tests. -/
structure KeyEvent where
  code : KeyCode
  ctrl : Bool
  superKey : Bool
deriving DecidableEq, Repr

/-- The state `handle_key_event` reads in order to route a key. The modal's
own `handle_key_event` result (a `bool` saying whether it consumed the key)
is supplied as the `modal_handles` oracle. -/
structure KeyRouteCtx where
  has_modal : Bool
  task_editor_focused : Bool
  selected_is_some : Bool
  editor : TaskEditor
  modal_handles : KeyEvent → Bool

/-- The actions `App::handle_key_event` (src/app.rs 1002-1368) sends to the
queue for a key, by routing precedence: the confirmation gate when a modal is
open outside Insert mode; then the mode dispatch. Mutations internal to the
focused editor or modal (text input, cursor moves) send nothing and are
modelled by the `TaskEditor` functions above. -/
def handle_key_event_actions (ctx : KeyRouteCtx) (mode : Mode) (key : KeyEvent) :
    List Action :=
  if ctx.has_modal ∧ mode ≠ Mode.Insert then
    match key.code with
    | .Char 'y' => [Action.ConfirmInput]
    | .Char 'Y' => [Action.ConfirmInput]
    | .Char 'n' => [Action.CancelInput]
    | .Char 'N' => [Action.CancelInput]
    | .Esc => [Action.CancelInput]
    | _ => []
  else
    match mode with
    | Mode.Normal =>
      if ctx.task_editor_focused then
        match key.code with
        | .Char 'q' => [Action.Quit]
        | .Esc =>
            if ctx.editor.get_current_editor.mode ≠ EditorMode.Normal then []
            else [Action.ExitTaskEditor]
        | .Char 'h' => if ctx.editor.is_at_line_start then [Action.ExitTaskEditor] else []
        | .Left => if ctx.editor.is_at_line_start then [Action.ExitTaskEditor] else []
        | .Enter =>
            match ctx.editor.current_input_field with
            | InputField.Description => []
            | _ => [Action.ConfirmInput]
        | .Char 's' => if key.ctrl then [Action.ConfirmInput] else []
        | _ => []
      else
        match key.code with
        | .Char 'q' => [Action.Quit]
        | .Esc => [Action.SelectNone]
        | .Char 'r' => [Action.RefreshTasks]
        | .Char 'n' => [Action.StartCreateTask]
        | .Char 'e' => [Action.StartCompleteTask]
        | .Char 'd' => [Action.StartDeleteTask]
        | .Char 'p' => if key.ctrl ∨ key.superKey then [Action.StartPostponeTask] else []
        | .Char '?' => [Action.ToggleHelp]
        | .Char 'j' => [Action.SelectNext]
        | .Char 'k' => [Action.SelectPrevious]
        | .Down => [Action.SelectNextCycling]
        | .Up => [Action.SelectPreviousCycling]
        | .Char 'g' => [Action.SelectFirst]
        | .Home => [Action.SelectFirst]
        | .Char 'G' => [Action.SelectLast]
        | .End => [Action.SelectLast]
        | .Tab => [Action.NextTab]
        | .BackTab => [Action.PreviousTab]
        | .Char 'l' => if ctx.selected_is_some then [Action.EnterTaskEditor] else []
        | .Right => if ctx.selected_is_some then [Action.EnterTaskEditor] else []
        | .Enter => [Action.StartEditTask]
        | .Char 'v' => [Action.EnterVisual]
        | _ => []
    | Mode.Insert =>
      if ctx.task_editor_focused then []
      else
        match key.code with
        | .Esc =>
            if ctx.has_modal then
              (if ctx.modal_handles key then [] else [Action.CancelInput])
            else [Action.CancelInput]
        | .Enter =>
            if key.ctrl ∨ key.superKey then [Action.ConfirmInput]
            else if ctx.has_modal then
              (if ctx.modal_handles key then [] else [Action.ConfirmInput])
            else []
        | _ => []
    | Mode.Visual =>
      match key.code with
      | .Esc => [Action.EnterNormal]
      | .Char 'j' => [Action.SelectNext]
      | .Char 'k' => [Action.SelectPrevious]
      | .Down => [Action.SelectNextCycling]
      | .Up => [Action.SelectPreviousCycling]
      | .Tab => [Action.SelectNextCycling]
      | .BackTab => [Action.SelectPreviousCycling]
      | .Char 'g' => [Action.SelectFirst]
      | .Home => [Action.SelectFirst]
      | .Char 'G' => [Action.SelectLast]
      | .End => [Action.SelectLast]
      | .Char 'e' => [Action.StartCompleteTask]
      | .Char 'd' => [Action.StartDeleteTask]
      | .Char 'p' => if key.ctrl ∨ key.superKey then [Action.StartPostponeTask] else []
      | _ => []
    | Mode.Processing => []
    | Mode.Help =>
      match key.code with
      | .Char '?' => [Action.ToggleHelp]
      | .Esc => [Action.ToggleHelp]
      | .Char 'q' => [Action.ToggleHelp]
      | _ => []

/-! ## Task cache and refresh coordination (src/app.rs) -/

/-- The kinds of background tasks `App` spawns; their bodies are modelled by
the `*_actions` / `fetch_finished` functions below. -/
inductive BgTask where
  | fetch_all
  | complete_batch
  | delete_batch
  | postpone_batch
  | create_or_edit
deriving DecidableEq, Repr

/-- The `App` fields involved in caching, refreshing and error display.
(`pending_tasks` is the mutex-guarded shared cell; locking never fails in the
model.) -/
structure AppState where
  mode : Mode
  ui : TaskListUI
  error_message : Option String
  error_ticks : Nat
  today_cache : List Task
  week_cache : List Task
  inbox_cache : List Task
  tasks_loaded : Bool
  pending_tasks : Option (List Task × List Task × List Task)
deriving DecidableEq, Repr

/-- `App::get_view_tasks`. -/
def AppState.get_view_tasks (st : AppState) (tab : ViewTab) : List Task :=
  match tab with
  | ViewTab.Today => st.today_cache
  | ViewTab.Week => st.week_cache
  | ViewTab.Inbox => st.inbox_cache

/-- `App::update_cache`: wholesale replacement of the three caches, set
`tasks_loaded`, and re-apply the current view to the on-screen list
(`set_tasks` clamps an out-of-range selection; the task editor's display
mirror of the selection is not modelled). -/
def AppState.update_cache (st : AppState) (today week inbox : List Task) : AppState :=
  let st := { st with today_cache := today, week_cache := week, inbox_cache := inbox,
                      tasks_loaded := true }
  let current := st.get_view_tasks st.ui.current_tab
  { st with ui := st.ui.set_tasks current.length }

/-- `App::error`: record the message, reset its tick counter, revert to
Normal mode. -/
def AppState.error (st : AppState) (msg : String) : AppState :=
  { st with error_message := some msg, error_ticks := 0, mode := Mode.Normal }

/-- `App::refresh_tasks` (src/app.rs 279-298): enter Processing mode and
spawn the background fetch of all three views. The run loop invokes this for
*every* `RefreshTasks` action it dequeues (src/app.rs line 99); the current
mode is not consulted. -/
def AppState.refresh_tasks (st : AppState) : AppState × List BgTask :=
  ({ st with mode := Mode.Processing }, [BgTask.fetch_all])

/-- The body of the background task spawned by `refresh_tasks`, applied to
the outcome of `fetch_all_tasks`: on success the tuple is written into the
shared `pending_tasks` cell and `TasksFetched` is sent; on failure only
`Error` is sent; `ExitProcessing` follows either way. Returns the state (only
the cell can change) and the actions sent. -/
def AppState.fetch_finished (st : AppState)
    (outcome : Except String (List Task × List Task × List Task)) :
    AppState × List Action :=
  match outcome with
  | .ok tuple =>
      ({ st with pending_tasks := some tuple },
       [Action.TasksFetched, Action.ExitProcessing])
  | .error e => (st, [Action.Error e, Action.ExitProcessing])

/-- `App::tasks_fetched`: `take()` the pending cell, and when it held a
tuple, apply `update_cache` to it. -/
def AppState.tasks_fetched (st : AppState) : AppState :=
  match st.pending_tasks with
  | some (today, week, inbox) =>
      ({ st with pending_tasks := none }).update_cache today week inbox
  | none => st

/-! ## Batch complete / delete bodies (src/app.rs, `complete_task` and
`delete_task`) -/

/-- The combined-error format used by all batch bodies:
`Failed to <op> <N> task(s): <e1, e2, ...>`. -/
def combined_error (op : String) (errors : List String) : String :=
  "Failed to " ++ op ++ " " ++ toString errors.length ++ " task(s): " ++
    strJoin ", " errors

/-- The body of the task spawned by `App::complete_task` (src/app.rs
326-350), applied to the per-task outcomes of `complete_task_with_client` in
selection order: every failure is pushed onto `errors` and the loop
continues; afterwards either one combined `Error` (when any failed) or a
`RefreshTasks` (when none did) is sent, followed by `ExitProcessing`. -/
def complete_batch_actions (results : List (Except String Unit)) : List Action :=
  let errors := results.foldl
    (fun errs r => match r with | .ok _ => errs | .error e => errs ++ [e]) []
  if errors.isEmpty then [Action.RefreshTasks, Action.ExitProcessing]
  else [Action.Error (combined_error "complete" errors), Action.ExitProcessing]

/-- A per-task outcome inside the delete batch of src/app.rs 369-399:
re-fetching the task can fail (pushed as `Failed to fetch task: <e>`, the
debug-formatted error), then the delete itself can fail (its message pushed
as is). -/
inductive DeleteOutcome where
  | fetch_failed (e : String)
  | delete_failed (e : String)
  | ok
deriving DecidableEq, Repr

/-- The error string a delete outcome contributes, if any. -/
def delete_outcome_error (r : DeleteOutcome) : Option String :=
  match r with
  | .fetch_failed e => some ("Failed to fetch task: " ++ e)
  | .delete_failed e => some e
  | .ok => none

/-- The body of the task spawned by `App::delete_task` (src/app.rs 369-399). -/
def delete_batch_actions (results : List DeleteOutcome) : List Action :=
  let errors := results.foldl
    (fun errs r =>
      match delete_outcome_error r with
      | some e => errs ++ [e]
      | none => errs) []
  if errors.isEmpty then [Action.RefreshTasks, Action.ExitProcessing]
  else [Action.Error (combined_error "delete" errors), Action.ExitProcessing]

/-! ## Postpone arithmetic (src/app.rs, the postpone arm of `confirm_input`)

Instants and durations are in seconds. The final conversion of each new UTC
datetime through the local timezone into a naive date/time pair and back (via
`edit_task`) maps an instant to itself, so the new due datetime *is*
`new_datetime_utc` as computed below. -/

/-- `utils::PostponeTarget` as consumed by src/app.rs 622-670 (the producing
`utils::parse_duration` is not among the sources; only the two variants
matched there exist). -/
inductive PostponeTarget where
  | RelativeToDueDate (duration : Int)
  | AbsoluteTime (datetime : Int)
deriving DecidableEq, Repr

/-- The `base_datetime_utc` computation (src/app.rs 622-640): for an absolute
target, the target instant paired with the earliest fetched task's due date
(`min_by_key` over due dates); nothing for a relative target or an empty
batch. -/
def postpone_base (target : PostponeTarget) (dues : List Int) : Option (Int × Int) :=
  match target with
  | .RelativeToDueDate _ => none
  | .AbsoluteTime datetime =>
    match dues.min? with
    | some earliest => some (datetime, earliest)
    | none => none

/-- The per-task `new_datetime_utc` (src/app.rs 643-670): relative targets
add the duration to the task's own due date; absolute targets add the task's
offset from the earliest due date to the target instant; the `None`-base
fallback uses the absolute instant directly. -/
def postpone_new_due (target : PostponeTarget) (base : Option (Int × Int)) (due : Int) :
    Int :=
  match target, base with
  | .RelativeToDueDate duration, _ => due + duration
  | .AbsoluteTime _, some (target_time, earliest_due) => target_time + (due - earliest_due)
  | .AbsoluteTime datetime, none => datetime

/-- The new due datetimes of a whole postponed batch, in batch order. -/
def postpone_new_dues (target : PostponeTarget) (dues : List Int) : List Int :=
  dues.map (postpone_new_due target (postpone_base target dues))

/-! ## Confirming a task modal (src/app.rs `confirm_input`, Insert arm) -/

/-- A record of one date/time parser invocation, with its argument. -/
inductive ParserCall where
  | date (arg : String)
  | time (arg : String)
deriving DecidableEq, Repr

/-- `TaskModal::validate` (src/modal.rs 865-898), as its observable outcome:
each of the date and time fields is parsed only when its trimmed text is
non-empty; the parser invocations made are recorded. -/
def task_modal_validate (today : NaiveDate) (date time : String) :
    Bool × List ParserCall :=
  let (date_ok, date_calls) :=
    if strTrim date ≠ "" then
      ((match parse_date_us_format today date with | .ok _ => true | .error _ => false),
       [ParserCall.date date])
    else (true, [])
  let (time_ok, time_calls) :=
    if strTrim time ≠ "" then
      ((match parse_time_us_format time with | .ok _ => true | .error _ => false),
       [ParserCall.time time])
    else (true, [])
  (date_ok && time_ok, date_calls ++ time_calls)

/-- The due computation at the top of the create/edit spawn (src/app.rs
742-743): both parsers are applied unconditionally to the modal's date and
time strings, and failures are discarded with `.ok()`. -/
def create_edit_spawn_due (today : NaiveDate) (date time : String) :
    (Option NaiveDate × Option NaiveTime) × List ParserCall :=
  (((parse_date_us_format today date).toOption, (parse_time_us_format time).toOption),
   [ParserCall.date date, ParserCall.time time])

/-- The due-date logic of `tasks::create_task` (src/tasks.rs 185-197): a due
datetime is attached only when a date was parsed; with no time, the task is
all-day at midnight. Returns `(date, time, is_all_day)`, or `none` for a task
with no due date. -/
def create_task_due (date : Option NaiveDate) (time : Option NaiveTime) :
    Option (NaiveDate × NaiveTime × Bool) :=
  match date with
  | some d =>
    match time with
    | some t => some (d, t, false)
    | none => some (d, ⟨0, 0, 0⟩, true)
  | none => none

/-- What the Insert arm of `confirm_input` decides for an open `TaskModal`. -/
inductive ConfirmSpawn where
  | nothing
  | create_or_edit (title description : String)
      (due_date : Option NaiveDate) (due_time : Option NaiveTime)
deriving DecidableEq, Repr

/-- The Insert arm of `confirm_input` (src/app.rs 570-796) applied to an open
`TaskModal` with values `[title, description, date, time]`: validation runs
first and blocks on failure; the postpone test (`values.len() == 1` and no
newline in the single value) never matches the four-value task modal; a
non-empty title starts the create/edit spawn, whose due fields come from
`create_edit_spawn_due`. All parser invocations are recorded in order. -/
def confirm_task_modal (today : NaiveDate) (title description date time : String) :
    ConfirmSpawn × List ParserCall :=
  let (valid, validate_calls) := task_modal_validate today date time
  if ¬ valid then (ConfirmSpawn.nothing, validate_calls)
  else
    let values := [title, description, date, time]
    if values.length = 1 ∧ ¬ strContains (values.headD "") '\n' then
      (ConfirmSpawn.nothing, validate_calls)
    else if ¬ values.isEmpty ∧ values.headD "" ≠ "" then
      let ((due_date, due_time), spawn_calls) := create_edit_spawn_due today date time
      (ConfirmSpawn.create_or_edit title description due_date due_time,
       validate_calls ++ spawn_calls)
    else (ConfirmSpawn.nothing, validate_calls)

/-! ## Concrete states used by scenarios and witnesses -/

/-- An inline-editor state focused on the multiline Description field in
Normal sub-mode: rows `["abc", ""]`, cursor at row 0 column 3, desired
column 3. -/
def descEditorAtCol3 : TaskEditor where
  input_title_editor := { lines := ["Pay"], row := 0, col := 0, mode := EditorMode.Normal }
  input_description_editor :=
    { lines := ["abc", ""], row := 0, col := 3, mode := EditorMode.Normal }
  input_date_editor := { lines := [""], row := 0, col := 0, mode := EditorMode.Normal }
  input_time_editor := { lines := [""], row := 0, col := 0, mode := EditorMode.Normal }
  current_input_field := InputField.Description
  is_edit_mode := true
  desired_column := 3

/-- An inline-editor state focused on the single-line Title field in Normal
sub-mode: title `"Payment"`, cursor at column 3, desired column 3,
description a single shorter row `"ab"`. -/
def titleEditorAtCol3 : TaskEditor where
  input_title_editor := { lines := ["Payment"], row := 0, col := 3, mode := EditorMode.Normal }
  input_description_editor := { lines := ["ab"], row := 0, col := 0, mode := EditorMode.Normal }
  input_date_editor := { lines := [""], row := 0, col := 0, mode := EditorMode.Normal }
  input_time_editor := { lines := [""], row := 0, col := 0, mode := EditorMode.Normal }
  current_input_field := InputField.Title
  is_edit_mode := true
  desired_column := 3

/-- A fresh inline-editor state (all fields one empty row, Title focused). -/
def emptyTaskEditor : TaskEditor where
  input_title_editor := { lines := [""], row := 0, col := 0, mode := EditorMode.Normal }
  input_description_editor := { lines := [""], row := 0, col := 0, mode := EditorMode.Normal }
  input_date_editor := { lines := [""], row := 0, col := 0, mode := EditorMode.Normal }
  input_time_editor := { lines := [""], row := 0, col := 0, mode := EditorMode.Normal }
  current_input_field := InputField.Title
  is_edit_mode := false
  desired_column := 0

/-- An application state in Processing mode (a background operation is in
flight), with loaded but empty caches and an empty pending cell. -/
def processingApp : AppState where
  mode := Mode.Processing
  ui := ⟨none, ViewTab.Today, none⟩
  error_message := none
  error_ticks := 0
  today_cache := []
  week_cache := []
  inbox_cache := []
  tasks_loaded := true
  pending_tasks := none

/-! # Supporting lemmas -/

theorem update_visual_range_selected (ui : TaskListUI) :
    ui.update_visual_range.selected = ui.selected := by
  unfold TaskListUI.update_visual_range
  rcases h1 : ui.selected with _ | idx <;> rcases h2 : ui.visual_range with _ | ⟨s, e⟩ <;>
    simp [h1, h2]

theorem set_current_editor_desired_column (te : TaskEditor) (e : EditorState) :
    (te.set_current_editor e).desired_column = te.desired_column := by
  unfold TaskEditor.set_current_editor
  cases te.current_input_field <;> rfl

theorem set_current_editor_field (te : TaskEditor) (e : EditorState) :
    (te.set_current_editor e).current_input_field = te.current_input_field := by
  unfold TaskEditor.set_current_editor
  cases h : te.current_input_field <;> simp [h]

theorem get_set_current_editor (te : TaskEditor) (e : EditorState) :
    (te.set_current_editor e).get_current_editor = e := by
  unfold TaskEditor.set_current_editor TaskEditor.get_current_editor
  cases h : te.current_input_field <;> simp [h]

theorem position_cursor_desired_column (te : TaskEditor) :
    te.position_cursor_at_desired_column.desired_column = te.desired_column := by
  unfold TaskEditor.position_cursor_at_desired_column
  cases h : te.get_current_editor.len_col te.get_current_editor.row <;>
    simp [h, set_current_editor_desired_column]

theorem handle_j_navigation_desired_column (te : TaskEditor) :
    (te.handle_j_navigation).1.desired_column = te.desired_column := by
  unfold TaskEditor.handle_j_navigation
  split
  · rfl
  · cases h : te.current_input_field <;>
      simp [h, position_cursor_desired_column, set_current_editor_desired_column]

theorem handle_k_navigation_desired_column (te : TaskEditor) :
    (te.handle_k_navigation).1.desired_column = te.desired_column := by
  unfold TaskEditor.handle_k_navigation
  split
  · rfl
  · cases h : te.current_input_field <;>
      simp [h, position_cursor_desired_column, set_current_editor_desired_column]

theorem daysInMonth_le_31 (y : Int) (m : Nat) : daysInMonth y m ≤ 31 := by
  unfold daysInMonth
  split
  any_goals omega
  split <;> omega

theorem cmp_due_eq_claim (a b : Task) :
    cmp_due a b = claim_date_rule a.due_date b.due_date a.is_all_day b.is_all_day := by
  unfold cmp_due claim_date_rule
  cases hu : is_unset a.due_date <;> cases hv : is_unset b.due_date <;> simp [hu, hv]
  cases hd : compare_by_day a.due_date b.due_date <;>
    cases ha : a.is_all_day <;> cases hb : b.is_all_day <;> simp [Ordering.then]

theorem cmp_start_eq_claim (a b : Task) :
    cmp_start a b = claim_date_rule a.start_date b.start_date a.is_all_day b.is_all_day := by
  unfold cmp_start claim_date_rule
  cases hu : is_unset a.start_date <;> cases hv : is_unset b.start_date <;> simp [hu, hv]
  cases hd : compare_by_day a.start_date b.start_date <;>
    cases ha : a.is_all_day <;> cases hb : b.is_all_day <;> simp [Ordering.then]

theorem complete_batch_errors (results : List (Except String Unit)) :
    results.foldl
        (fun errs r => match r with | .ok _ => errs | .error e => errs ++ [e]) [] =
      results.filterMap (fun r => match r with | .ok _ => none | .error e => some e) := by
  suffices h : ∀ init : List String,
      results.foldl
          (fun errs r => match r with | .ok _ => errs | .error e => errs ++ [e]) init =
        init ++ results.filterMap
          (fun r => match r with | .ok _ => none | .error e => some e) by
    simpa using h []
  induction results with
  | nil => intro init; simp
  | cons r rest ih =>
    intro init
    cases r <;> simp [ih]

theorem delete_batch_errors (results : List DeleteOutcome) :
    results.foldl
        (fun errs r =>
          match delete_outcome_error r with
          | some e => errs ++ [e]
          | none => errs) [] =
      results.filterMap delete_outcome_error := by
  suffices h : ∀ init : List String,
      results.foldl
          (fun errs r =>
            match delete_outcome_error r with
            | some e => errs ++ [e]
            | none => errs) init =
        init ++ results.filterMap delete_outcome_error by
    simpa using h []
  induction results with
  | nil => intro init; simp
  | cons r rest ih =>
    intro init
    cases hr : delete_outcome_error r <;> simp [List.filterMap_cons, hr, ih]

/-! # Claim theorems -/

/-- **C4 (counterexample).** Confirming a `TaskModal` with a non-empty title
and empty date/time *does* call the date/time parser paths: the spawned
create body applies both parsers unconditionally to the empty strings
(src/app.rs 742-743), so the recorded parser-call trace is non-empty. (The
created task still has no due date, since both parses fail.) -/
theorem confirm_empty_date_calls_parsers_cex :
    (confirm_task_modal ⟨2025, 10, 12⟩ "Pay rent" "" "" "").1 =
      ConfirmSpawn.create_or_edit "Pay rent" "" none none ∧
    ¬ ((confirm_task_modal ⟨2025, 10, 12⟩ "Pay rent" "" "" "").2 = []) ∧
    (confirm_task_modal ⟨2025, 10, 12⟩ "Pay rent" "" "" "").2 =
      [ParserCall.date "", ParserCall.time ""] := by
  decide

/-- **C4 (amended).** Confirming a `TaskModal` whose title is non-empty and
whose date and time are both the empty string creates a task with no due date
— validation passes without parsing, both parsers fail on the empty strings,
and `create_task` attaches no due datetime — but the parser paths *are*
invoked on the empty inputs by the spawned body (rather than skipped). -/
theorem confirm_empty_date_no_due (today : NaiveDate) (title description : String)
    (h : title ≠ "") :
    confirm_task_modal today title description "" "" =
      (ConfirmSpawn.create_or_edit title description none none,
       [ParserCall.date "", ParserCall.time ""]) ∧
    create_task_due none none = none := by
  refine ⟨?_, rfl⟩
  have hv : task_modal_validate today "" "" = (true, []) := rfl
  have hdue : create_edit_spawn_due today "" "" =
      ((none, none), [ParserCall.date "", ParserCall.time ""]) := rfl
  unfold confirm_task_modal
  rw [hv, hdue]
  simp [h]

/-- **C4 (witness).** The spec's scenario `title = "Pay rent"`, empty date
and time. -/
theorem confirm_empty_date_no_due_witness :
    confirm_task_modal ⟨2025, 10, 12⟩ "Pay rent" "rent is due" "" "" =
      (ConfirmSpawn.create_or_edit "Pay rent" "rent is due" none none,
       [ParserCall.date "", ParserCall.time ""]) ∧
    create_task_due none none = none :=
  confirm_empty_date_no_due ⟨2025, 10, 12⟩ "Pay rent" "rent is due" (by decide)

/-- **C5.** The `sort_tasks` comparator is exactly the specification's
lexicographic order: the due-date rule (unset last, calendar day first, timed
before all-day on the same day, then exact timestamp), ties broken by the
same rule on start dates, and finally the sort-order field. In particular an
unset due date sorts after any set one, and on a shared calendar day a timed
task sorts before an all-day one. -/
theorem sort_tasks_comparator_spec (a b : Task) : cmp_tasks a b = claim_order a b := by
  unfold cmp_tasks claim_order
  rw [cmp_due_eq_claim, cmp_start_eq_claim]
  generalize claim_date_rule a.due_date b.due_date a.is_all_day b.is_all_day = d
  generalize claim_date_rule a.start_date b.start_date a.is_all_day b.is_all_day = s
  cases d <;> cases s <;> simp [Ordering.then]

/-- **C6.** `parse_date_us_format` with no year given resolves the year
against today: the current year when the date has not yet passed (today
included, i.e. `date ≥ today`), else the next year. Month outside `1..=12`
and day outside `1..=31` are rejected, but no further day-of-month check runs
before date construction: `"2/30"` passes both bound checks and goes through
the year resolution (February 30 is never constructible in the current year,
so the next year is chosen, and only the final construction fails). -/
theorem parse_date_year_resolution_spec (today : NaiveDate) (m d : Nat) :
    ((m < 1 ∨ m > 12) →
      resolve_month_day today m d none = Except.error "Month must be between 1 and 12") ∧
    (1 ≤ m → m ≤ 12 → (d < 1 ∨ d > 31) →
      resolve_month_day today m d none = Except.error "Day must be between 1 and 31") ∧
    (∀ date, NaiveDate.from_ymd_opt today.year m d = some date →
      resolve_month_day today m d none =
        if ¬ date.lt today then Except.ok date
        else
          match NaiveDate.from_ymd_opt (today.year + 1) m d with
          | some date2 => Except.ok date2
          | none =>
              Except.error ("Invalid date: " ++ toString m ++ "/" ++ toString d ++ "/" ++
                toString (today.year + 1))) ∧
    parse_date_us_format today "2/30" =
      Except.error ("Invalid date: 2/30/" ++ toString (today.year + 1)) := by
  refine ⟨?_, ?_, ?_, ?_⟩
  · intro h
    unfold resolve_month_day
    rw [if_pos h]
  · intro h1 h2 h3
    unfold resolve_month_day
    rw [if_neg (by omega), if_pos h3]
  · intro date hdate
    have hbounds := hdate
    unfold NaiveDate.from_ymd_opt at hbounds
    split at hbounds
    case isFalse => exact absurd hbounds (by simp)
    case isTrue hb =>
      unfold resolve_month_day
      have h31 := daysInMonth_le_31 today.year m
      rw [if_neg (by omega), if_neg (by omega)]
      simp only [hdate]
      cases hlt : date.lt today <;> simp [hlt, hdate]
  · have h30 : ∀ y : Int, NaiveDate.from_ymd_opt y 2 30 = none := by
      intro y
      unfold NaiveDate.from_ymd_opt daysInMonth
      cases h : isLeapYear y <;> simp [h]
    have h1 : parse_date_us_format today "2/30" = resolve_month_day today 2 30 none := rfl
    rw [h1]
    unfold resolve_month_day
    rw [if_neg (by omega), if_neg (by omega)]
    simp only [h30]
    rfl

/-- **C6 (witness).** At the fixed reference date 2025-10-12: `"2/15"`
resolves to 2026 (February 15 has passed), month 13 is rejected, and `"2/30"`
passes the bound checks and fails only at construction, in the next year. -/
theorem parse_date_year_resolution_spec_witness :
    resolve_month_day ⟨2025, 10, 12⟩ 2 15 none = Except.ok ⟨2026, 2, 15⟩ ∧
    resolve_month_day ⟨2025, 10, 12⟩ 13 5 none =
      Except.error "Month must be between 1 and 12" ∧
    parse_date_us_format ⟨2025, 10, 12⟩ "2/30" =
      Except.error "Invalid date: 2/30/2026" := by
  refine ⟨?_, (parse_date_year_resolution_spec ⟨2025, 10, 12⟩ 13 5).1 (by decide), ?_⟩
  · rw [(parse_date_year_resolution_spec ⟨2025, 10, 12⟩ 2 15).2.2.1 ⟨2025, 2, 15⟩
      (by decide)]
    decide
  · exact (parse_date_year_resolution_spec ⟨2025, 10, 12⟩ 2 30).2.2.2

/-- **C7.** Postponing a batch to an absolute target preserves relative
spacing: each task's new due datetime is the target instant plus that task's
offset from the earliest original due date, so for every pair of tasks in the
batch the difference between new due datetimes equals the difference between
the original ones. -/
theorem postpone_absolute_preserves_offsets (dt : Int) (dues : List Int)
    (i j : Nat) (hi : i < dues.length) (hj : j < dues.length) :
    (postpone_new_dues (PostponeTarget.AbsoluteTime dt) dues).length = dues.length ∧
    (∀ e, dues.min? = some e →
      (postpone_new_dues (PostponeTarget.AbsoluteTime dt) dues)[i]! =
        dt + (dues[i]! - e)) ∧
    (postpone_new_dues (PostponeTarget.AbsoluteTime dt) dues)[i]! -
        (postpone_new_dues (PostponeTarget.AbsoluteTime dt) dues)[j]! =
      dues[i]! - dues[j]! := by
  have hne : dues ≠ [] := by
    intro h
    subst h
    simp at hi
  obtain ⟨e, he⟩ : ∃ e, dues.min? = some e :=
    Option.ne_none_iff_exists'.mp (by simp [List.min?_eq_none_iff, hne])
  have hval : ∀ k, k < dues.length →
      (postpone_new_dues (PostponeTarget.AbsoluteTime dt) dues)[k]! =
        dt + (dues[k]! - e) := by
    intro k hk
    unfold postpone_new_dues postpone_base
    rw [he]
    rw [getElem!_pos (dues.map _) k (by simpa using hk), getElem!_pos dues k hk]
    simp [postpone_new_due]
  refine ⟨by simp [postpone_new_dues], ?_, ?_⟩
  · intro e' he'
    have hee : e' = e := by
      rw [he] at he'
      exact (Option.some.inj he').symm
    rw [hee]
    exact hval i hi
  · rw [hval i hi, hval j hj]
    ring

/-- **C7 (witness).** A three-task batch with dues `[100, 160, 130]`
postponed to the absolute instant 5000: the second task keeps its offset of
60 from the earliest, and the pairwise difference between tasks 2 and 3 stays
30. -/
theorem postpone_absolute_preserves_offsets_witness :
    (postpone_new_dues (PostponeTarget.AbsoluteTime 5000) [100, 160, 130])[1]! -
        (postpone_new_dues (PostponeTarget.AbsoluteTime 5000) [100, 160, 130])[2]! =
      ([100, 160, 130] : List Int)[1]! - ([100, 160, 130] : List Int)[2]! ∧
    (postpone_new_dues (PostponeTarget.AbsoluteTime 5000) [100, 160, 130])[1]! = 5060 := by
  have h := postpone_absolute_preserves_offsets 5000 [100, 160, 130] 1 2
    (by decide) (by decide)
  refine ⟨h.2.2, ?_⟩
  rw [h.2.1 100 (by decide)]
  decide

/-- **C8.** Batch complete and delete collect every task's individual failure
without aborting the rest of the batch (the collected errors are exactly the
failures, in order); when any task failed, exactly one combined error of the
form `Failed to complete/delete N task(s): e1, e2, ...` with N the number of
failures is surfaced and no refresh is sent; when all succeeded, a refresh is
sent automatically. -/
theorem batch_error_aggregation
    (results : List (Except String Unit)) (dresults : List DeleteOutcome) :
    ((results.filterMap (fun r => match r with | .ok _ => none | .error e => some e)
        = [] →
      complete_batch_actions results = [Action.RefreshTasks, Action.ExitProcessing]) ∧
     (∀ errs,
       results.filterMap (fun r => match r with | .ok _ => none | .error e => some e)
          = errs →
       errs ≠ [] →
       complete_batch_actions results =
         [Action.Error ("Failed to complete " ++ toString errs.length ++
            " task(s): " ++ strJoin ", " errs), Action.ExitProcessing] ∧
       Action.RefreshTasks ∉ complete_batch_actions results)) ∧
    ((dresults.filterMap delete_outcome_error = [] →
      delete_batch_actions dresults = [Action.RefreshTasks, Action.ExitProcessing]) ∧
     (∀ errs, dresults.filterMap delete_outcome_error = errs →
       errs ≠ [] →
       delete_batch_actions dresults =
         [Action.Error ("Failed to delete " ++ toString errs.length ++
            " task(s): " ++ strJoin ", " errs), Action.ExitProcessing] ∧
       Action.RefreshTasks ∉ delete_batch_actions dresults)) := by
  constructor
  · constructor
    · intro h
      unfold complete_batch_actions
      rw [complete_batch_errors, h]
      rfl
    · intro errs herrs hne
      unfold complete_batch_actions
      rw [complete_batch_errors, herrs]
      have hemp : errs.isEmpty = false := by
        cases errs with
        | nil => exact absurd rfl hne
        | cons x xs => rfl
      simp only [hemp, Bool.false_eq_true, if_false, combined_error]
      exact ⟨rfl, by simp⟩
  · constructor
    · intro h
      unfold delete_batch_actions
      rw [delete_batch_errors, h]
      rfl
    · intro errs herrs hne
      unfold delete_batch_actions
      rw [delete_batch_errors, herrs]
      have hemp : errs.isEmpty = false := by
        cases errs with
        | nil => exact absurd rfl hne
        | cons x xs => rfl
      simp only [hemp, Bool.false_eq_true, if_false, combined_error]
      exact ⟨rfl, by simp⟩

/-- **C8 (witness).** Concrete batches: two of three completions fail and are
aggregated into one message with N = 2 while the batch ran to the end; a
fully successful batch triggers the refresh; a delete batch with a fetch
failure surfaces it in the combined message. -/
theorem batch_error_aggregation_witness :
    complete_batch_actions [Except.ok (), Except.error "boom", Except.error "bad"] =
      [Action.Error "Failed to complete 2 task(s): boom, bad", Action.ExitProcessing] ∧
    complete_batch_actions [Except.ok (), Except.ok ()] =
      [Action.RefreshTasks, Action.ExitProcessing] ∧
    delete_batch_actions [DeleteOutcome.ok, DeleteOutcome.fetch_failed "gone"] =
      [Action.Error "Failed to delete 1 task(s): Failed to fetch task: gone",
       Action.ExitProcessing] := by
  have h := batch_error_aggregation [Except.ok (), Except.error "boom", Except.error "bad"]
    [DeleteOutcome.ok, DeleteOutcome.fetch_failed "gone"]
  have h2 := batch_error_aggregation [Except.ok (), Except.ok ()] []
  exact ⟨(h.1.2 ["boom", "bad"] (by decide) (by decide)).1,
    h2.1.1 (by decide),
    (h.2.2 ["Failed to fetch task: gone"] (by decide) (by decide)).1⟩

/-- **C9.** A failed background fetch changes nothing (caches, loaded flag
and pending cell untouched) and surfaces only the error — and dispatching
that `Error` action also leaves the caches and the loaded flag untouched. A
successful fetch fills the pending cell, and draining it replaces all three
cached lists wholesale (never partially) and sets the loaded flag. The cell
is drained exactly once: after a drain it is empty, and `TasksFetched`
applied to an empty cell leaves the state unchanged. -/
theorem fetch_failure_and_drain_spec (st : AppState) (e : String)
    (t w i : List Task) :
    st.fetch_finished (Except.error e) = (st, [Action.Error e, Action.ExitProcessing]) ∧
    ((st.error e).today_cache = st.today_cache ∧
      (st.error e).week_cache = st.week_cache ∧
      (st.error e).inbox_cache = st.inbox_cache ∧
      (st.error e).tasks_loaded = st.tasks_loaded ∧
      (st.error e).error_message = some e) ∧
    ((((st.fetch_finished (Except.ok (t, w, i))).1).tasks_fetched).today_cache = t ∧
      (((st.fetch_finished (Except.ok (t, w, i))).1).tasks_fetched).week_cache = w ∧
      (((st.fetch_finished (Except.ok (t, w, i))).1).tasks_fetched).inbox_cache = i ∧
      (((st.fetch_finished (Except.ok (t, w, i))).1).tasks_fetched).tasks_loaded = true ∧
      (((st.fetch_finished (Except.ok (t, w, i))).1).tasks_fetched).pending_tasks = none ∧
      ((((st.fetch_finished (Except.ok (t, w, i))).1).tasks_fetched).tasks_fetched =
        ((st.fetch_finished (Except.ok (t, w, i))).1).tasks_fetched)) ∧
    (st.pending_tasks = none → st.tasks_fetched = st) := by
  refine ⟨rfl, ⟨rfl, rfl, rfl, rfl, rfl⟩, ⟨rfl, rfl, rfl, rfl, rfl, rfl⟩, ?_⟩
  intro h
  unfold AppState.tasks_fetched
  simp [h]

/-- **C9 (witness).** The failure and empty-cell clauses at the concrete
Processing-mode state. -/
theorem fetch_failure_and_drain_spec_witness :
    processingApp.fetch_finished (Except.error "net down") =
      (processingApp, [Action.Error "net down", Action.ExitProcessing]) ∧
    processingApp.tasks_fetched = processingApp := by
  have h := fetch_failure_and_drain_spec processingApp "net down"
    [⟨100, 0, false, 1⟩] [] []
  exact ⟨h.1, h.2.2.2 rfl⟩

/-- **C10.** For every non-empty list, the clamping `select_next` is
idempotent once the selection sits at the last index — calling it again does
not change the selection — and `select_next_cycling` from the last index
selects index 0. -/
theorem select_next_last_index_spec (ui : TaskListUI) (n : Nat)
    (hn : 0 < n) (hsel : ui.selected = some (n - 1)) :
    (ui.select_next n).selected = some (n - 1) ∧
    ((ui.select_next n).select_next n).selected = some (n - 1) ∧
    (ui.select_next_cycling n).selected = some 0 := by
  have key : ∀ u : TaskListUI, u.selected = some (n - 1) →
      (u.select_next n).selected = some (n - 1) := by
    intro u hu
    unfold TaskListUI.select_next
    have hn' : ¬ n = 0 := Nat.pos_iff_ne_zero.mp hn
    simp only [hn', if_false, hu]
    split
    · exact absurd (by assumption) (Nat.lt_irrefl _)
    · split <;> simp [update_visual_range_selected, hu]
  have h1 := key ui hsel
  refine ⟨h1, key _ h1, ?_⟩
  unfold TaskListUI.select_next_cycling
  have hn' : ¬ n = 0 := Nat.pos_iff_ne_zero.mp hn
  simp only [hn', if_false, hsel]
  split
  · split <;> simp [update_visual_range_selected]
  · exact absurd (Nat.le_refl _) (by assumption)

/-- **C10 (witness).** The properties at a concrete three-element list with
the selection on the last index. -/
theorem select_next_last_index_spec_witness :
    (TaskListUI.select_next ⟨some 2, ViewTab.Today, none⟩ 3).selected = some 2 ∧
    ((TaskListUI.select_next ⟨some 2, ViewTab.Today, none⟩ 3).select_next 3).selected =
      some 2 ∧
    (TaskListUI.select_next_cycling ⟨some 2, ViewTab.Today, none⟩ 3).selected = some 0 :=
  select_next_last_index_spec ⟨some 2, ViewTab.Today, none⟩ 3 (by decide) (by decide)

/-- **C1 (counterexample).** A `j` vertical motion outside insert mode that
stays inside the multiline Description field *does* update the desired
column: the key route of src/app.rs calls `update_desired_column` after the
within-field move, so from desired column 3 over rows `["abc", ""]` the
desired column becomes 0, and the j-then-k round trip lands at column 0
although the original row (length 3) could hold column 3. -/
theorem inline_multiline_j_updates_desired_column_cex :
    descEditorAtCol3.is_current_editor_in_insert_mode = false ∧
    descEditorAtCol3.desired_column = 3 ∧
    ¬ ((descEditorAtCol3.handle_j_key_normal).desired_column =
        descEditorAtCol3.desired_column) ∧
    (descEditorAtCol3.handle_j_key_normal).desired_column = 0 ∧
    ((descEditorAtCol3.handle_j_key_normal).handle_k_key_normal).get_current_editor.col
      = 0 := by
  decide

/-- **C1 (amended).** Vertical motion outside insert mode that hands off
between fields never updates the desired column and places the cursor at
`min(desired_column, length of the destination row)`; consequently the
Title-j-Description-k-Title round trip restores column
`min(desired_column, title length)` — exactly the desired column when the
title row is long enough. Vertical motion *within* the multiline Description
field, however, is followed by `update_desired_column` in the key route of
src/app.rs, so there the desired column becomes the clamped landing column
(see the counterexample). -/
theorem inline_handoff_desired_column_spec :
    (∀ te : TaskEditor,
       (te.handle_j_navigation).1.desired_column = te.desired_column ∧
       (te.handle_k_navigation).1.desired_column = te.desired_column) ∧
    (∀ (te : TaskEditor) (t0 d0 : String),
       te.current_input_field = InputField.Title →
       te.input_title_editor.lines = [t0] →
       te.input_description_editor.lines = [d0] →
       ((te.handle_j_key_normal).current_input_field = InputField.Description ∧
        (te.handle_j_key_normal).get_current_editor.col =
          min te.desired_column d0.length ∧
        (te.handle_j_key_normal).desired_column = te.desired_column) ∧
       (((te.handle_j_key_normal).handle_k_key_normal).current_input_field =
          InputField.Title ∧
        ((te.handle_j_key_normal).handle_k_key_normal).get_current_editor.col =
          min te.desired_column t0.length ∧
        ((te.handle_j_key_normal).handle_k_key_normal).desired_column =
          te.desired_column)) := by
  constructor
  · intro te
    exact ⟨handle_j_navigation_desired_column te, handle_k_navigation_desired_column te⟩
  · intro te t0 d0 hf ht hd
    have hj : te.handle_j_key_normal =
        { te with
            current_input_field := InputField.Description,
            input_description_editor :=
              { te.input_description_editor with
                  row := 0, col := min te.desired_column d0.length } } := by
      unfold TaskEditor.handle_j_key_normal TaskEditor.handle_j_navigation
      simp [hf, hd, TaskEditor.get_current_editor, TaskEditor.set_current_editor,
        TaskEditor.position_cursor_at_desired_column, EditorState.len_col,
        TaskEditor.is_at_last_line_in_multiline_field]
    rw [hj]
    refine ⟨⟨rfl, ?_, rfl⟩, ?_⟩
    · unfold TaskEditor.get_current_editor
      simp
    · have hk :
          TaskEditor.handle_k_key_normal
            { te with
                current_input_field := InputField.Description,
                input_description_editor :=
                  { te.input_description_editor with
                      row := 0, col := min te.desired_column d0.length } } =
          { te with
              current_input_field := InputField.Title,
              input_title_editor :=
                { te.input_title_editor with
                    row := 0, col := min te.desired_column t0.length },
              input_description_editor :=
                { te.input_description_editor with
                    row := 0, col := min te.desired_column d0.length } } := by
        unfold TaskEditor.handle_k_key_normal TaskEditor.handle_k_navigation
        simp [ht, TaskEditor.get_current_editor, TaskEditor.set_current_editor,
          TaskEditor.position_cursor_at_desired_column, EditorState.len_col,
          TaskEditor.is_at_first_line_in_multiline_field]
      rw [hk]
      refine ⟨rfl, ?_, rfl⟩
      unfold TaskEditor.get_current_editor
      simp

/-- **C1 (witness).** The round trip at the concrete Title-focused editor:
`j` lands in the two-character description at column `min 3 2 = 2`; `k`
returns to the seven-character title at the full desired column 3. -/
theorem inline_handoff_desired_column_spec_witness :
    (titleEditorAtCol3.handle_j_key_normal).get_current_editor.col = 2 ∧
    ((titleEditorAtCol3.handle_j_key_normal).handle_k_key_normal).get_current_editor.col
      = 3 ∧
    ((titleEditorAtCol3.handle_j_key_normal).handle_k_key_normal).desired_column = 3 := by
  have h := inline_handoff_desired_column_spec.2 titleEditorAtCol3 "Payment" "ab"
    rfl rfl rfl
  exact ⟨h.1.2.1, h.2.2.1, h.2.2.2⟩

/-- **C2 (counterexample).** A `RefreshTasks` action dispatched while
Processing mode is active *does* spawn another background fetch: the run loop
calls `refresh_tasks` for every dequeued `RefreshTasks` with no mode guard,
and `refresh_tasks` spawns unconditionally. (Such an action is reachable in
Processing mode: the batch bodies send `RefreshTasks` before
`ExitProcessing`.) -/
theorem refresh_in_processing_spawns_cex :
    processingApp.mode = Mode.Processing ∧
    ¬ ((processingApp.refresh_tasks).2 = []) ∧
    (processingApp.refresh_tasks).2 = [BgTask.fetch_all] := by
  decide

/-- **C2 (amended).** While Processing mode is active and no modal is open,
`handle_key_event` emits no actions whatsoever, so no *key-initiated* refresh
request can arise during Processing; and spawning a fetch always enters
Processing mode first (`refresh_tasks` sets it unconditionally). The
`RefreshTasks` action itself, however, is not gated on the mode (see the
counterexample). -/
theorem processing_ignores_keys (ctx : KeyRouteCtx) (key : KeyEvent)
    (hmodal : ctx.has_modal = false) :
    handle_key_event_actions ctx Mode.Processing key = [] ∧
    (∀ st : AppState, (st.refresh_tasks).1.mode = Mode.Processing) := by
  constructor
  · unfold handle_key_event_actions
    simp [hmodal]
  · intro st
    rfl

/-- **C2 (witness).** The gating at a concrete context and the `r` key, and
the Processing transition of a concrete refresh. -/
theorem processing_ignores_keys_witness :
    handle_key_event_actions
      ⟨false, false, false, emptyTaskEditor, fun _ => false⟩ Mode.Processing
      ⟨KeyCode.Char 'r', false, false⟩ = [] ∧
    (processingApp.refresh_tasks).1.mode = Mode.Processing := by
  have h := processing_ignores_keys
    ⟨false, false, false, emptyTaskEditor, fun _ => false⟩
    ⟨KeyCode.Char 'r', false, false⟩ rfl
  exact ⟨h.1, h.2 processingApp⟩

/-- **C3 (counterexample).** Switching tabs does *not* remove the visual
range: from Visual state with range `(1, 3)`, `next_tab` clears the selection
but resets the range to `(0, 0)` instead of removing it. -/
theorem next_tab_keeps_visual_range_cex :
    ¬ (((⟨some 2, ViewTab.Today, some (1, 3)⟩ : TaskListUI).next_tab).selected = none ∧
       ((⟨some 2, ViewTab.Today, some (1, 3)⟩ : TaskListUI).next_tab).visual_range = none) := by
  decide

/-- **C3 (amended).** Switching tabs (`next_tab` or `previous_tab`) always
clears the selection; a present visual range is reset to `(0, 0)` rather than
removed, and an absent one stays absent. -/
theorem tab_switch_clears_selection (ui : TaskListUI) :
    (ui.next_tab.selected = none ∧
      ui.next_tab.visual_range =
        (if ui.visual_range.isSome then some (0, 0) else none)) ∧
    (ui.previous_tab.selected = none ∧
      ui.previous_tab.visual_range =
        (if ui.visual_range.isSome then some (0, 0) else none)) := by
  rcases h : ui.visual_range with _ | ⟨s, e⟩ <;>
    simp [TaskListUI.next_tab, TaskListUI.previous_tab, TaskListUI.select_none, h]

end Automatick
